import Mathlib

/-!
Verification development for the GoHighLevel MCP server.

The repository contains two source files:

* `api/server.js` (the unnamed part): a self-contained Node request handler
  implementing the MCP JSON-RPC dialect (`processJsonRpcMessage`,
  `handleInitialize`, `handleToolsList`, `handleToolsCall`, `handlePing`),
  a shared tool executor (`executeToolLogic`), a GenAI REST bridge
  (`/api/genai/tools/...`), and an SSE transport (`/sse` GET and POST).
* `src/server.ts`: an Express/MCP-SDK server whose `CallToolRequestSchema`
  handler routes a tool name to one of 19 handler groups through the
  `isXTool` string-membership predicates.

This file gives a shallow embedding of those parts and proves properties
about them.  JavaScript values are modelled by the inductive `Js`
(numbers restricted to integers, which covers every number the embedded
code paths manipulate); property access, truthiness and template-literal
stringification follow JavaScript semantics on the constructors that can
actually reach them.  `new Date().toISOString()` is modelled by threading
an explicit `now : String` through the functions that call it.
-/

/-- A decoded JavaScript/JSON value.  `undef` is JavaScript `undefined`
(the result of reading an absent property); `obj` carries the own
enumerable properties in insertion order (as produced by `JSON.parse`,
keys are distinct). -/
inductive Js where
  | undefined
  | null
  | bool (b : Bool)
  | num (n : Int)
  | str (s : String)
  | arr (elems : List Js)
  | obj (fields : List (String × Js))
deriving Repr

/-- A fault raised while evaluating the embedded JavaScript (a thrown
`TypeError` or `Error`); only its `message` is ever observed. -/
structure JsErr where
  message : String
deriving Repr, DecidableEq

/-- Property lookup on an object literal: first binding of the key,
`undefined` when absent. -/
def objGet (fs : List (String × Js)) (k : String) : Js :=
  match fs.find? (fun kv => kv.1 == k) with
  | some kv => kv.2
  | none => .undefined

/-- JavaScript property read `v[k]`: throws a `TypeError` on `null` /
`undefined`, yields `undefined` on primitives (none of the keys the code
reads is an own or inherited property of a primitive). -/
def getField (v : Js) (k : String) : Except JsErr Js :=
  match v with
  | .null => .error { message := "Cannot read properties of null (reading \x27" ++ k ++ "\x27)" }
  | .undefined => .error { message := "Cannot read properties of undefined (reading \x27" ++ k ++ "\x27)" }
  | .obj fs => .ok (objGet fs k)
  | _ => .ok .undefined

/-- `v === s` for a string literal `s` (strict equality against a string
is true exactly when `v` is that string). -/
def isStr (v : Js) (s : String) : Bool :=
  match v with
  | .str t => t == s
  | _ => false

/-- JavaScript truthiness (the model has no `NaN`: numbers are integers). -/
def truthy : Js → Bool
  | .undefined => false
  | .null => false
  | .bool b => b
  | .num n => n != 0
  | .str s => s != ""
  | .arr _ => true
  | .obj _ => true

/-- The `in` operator `k in v`: own-key test on objects, index/`length`
test on arrays, a `TypeError` on anything that is not an object. -/
def hasKey (v : Js) (k : String) : Except JsErr Bool :=
  match v with
  | .obj fs => .ok (fs.any (fun kv => kv.1 == k))
  | .arr xs => .ok (k == "length" ||
      (match k.toNat? with
       | some n => n < xs.length
       | none => false))
  | _ => .error { message := "Cannot use \x27in\x27 operator to search for \x27" ++ k ++ "\x27" }

/-- `Object.keys(v)`: own enumerable keys of an object, index strings for
arrays and strings, empty for other primitives. -/
def jsKeys (v : Js) : List String :=
  match v with
  | .obj fs => fs.map (fun kv => kv.1)
  | .arr xs => (List.range xs.length).map toString
  | .str s => (List.range s.length).map toString
  | _ => []

/-- JavaScript `String(v)` / template-literal interpolation.  Arrays
stringify as their elements joined by commas with `null` / `undefined`
elements becoming empty, objects as `[object Object]`. -/
def jsToString : Js → String
  | .undefined => "undefined"
  | .null => "null"
  | .bool b => if b then "true" else "false"
  | .num n => toString n
  | .str s => s
  | .obj _ => "[object Object]"
  | .arr xs => String.intercalate "," (xs.attach.map (fun x =>
      match x with
      | ⟨.undefined, _⟩ => ""
      | ⟨.null, _⟩ => ""
      | ⟨v, hv⟩ => jsToString v))
decreasing_by
  simp_wf
  have h9 := List.sizeOf_lt_of_mem hv
  omega

/-! ## The MCP protocol core of `api/server.js` (the unnamed source file) -/

/-- `MCP_PROTOCOL_VERSION` constant. -/
def MCP_PROTOCOL_VERSION : String := "2024-11-05"

/-- `SERVER_INFO` constant, as the JSON value it is serialized to. -/
def SERVER_INFO : Js :=
  .obj [("name", .str "ghl-mcp-server"), ("version", .str "1.0.0")]

/-- The `error` member of a JSON-RPC error envelope. -/
structure JsonRpcError where
  code : Int
  message : String
  data : Option Js
deriving Repr

/-- A JSON-RPC 2.0 response envelope (the `jsonrpc: "2.0"` member is
constant and left implicit).  `createJsonRpcResponse` assigns exactly one
of `result` / `error`. -/
structure JsonRpcResponse where
  id : Js
  result : Option Js
  error : Option JsonRpcError
deriving Repr

/-- `createJsonRpcResponse(id, result, error)`: when `error` is given the
envelope carries it, otherwise it carries `result` (which the source
defaults to `null`). -/
def createJsonRpcResponse (id : Js) (result : Js) (error : Option JsonRpcError) :
    JsonRpcResponse :=
  match error with
  | some e => { id := id, result := none, error := some e }
  | none => { id := id, result := some result, error := none }

/-- The input schema of a tool: the `properties` map (each value the
property's schema object) and the `required` name array from the `TOOLS`
literal. -/
structure InputSchema where
  properties : List (String × Js)
  required : List String
deriving Repr

/-- One entry of the `TOOLS` literal (its `inputSchema.type` is always
`"object"` and is re-attached by `toolDefJs`). -/
structure ToolDef where
  name : String
  description : String
  inputSchema : InputSchema
deriving Repr

def searchToolDef : ToolDef :=
  { name := "search"
  , description := "Search for information in GoHighLevel CRM system"
  , inputSchema :=
    { properties :=
        [("query", .obj [("type", .str "string"),
                         ("description", .str "Search query for GoHighLevel data")])]
    , required := ["query"] } }

def retrieveToolDef : ToolDef :=
  { name := "retrieve"
  , description := "Retrieve specific data from GoHighLevel"
  , inputSchema :=
    { properties :=
        [("id", .obj [("type", .str "string"),
                      ("description", .str "ID of the item to retrieve")]),
         ("type", .obj [("type", .str "string"),
                        ("enum", .arr [.str "contact", .str "conversation", .str "blog"]),
                        ("description", .str "Type of item to retrieve")])]
    , required := ["id", "type"] } }

/-- The `TOOLS` array: the two registered tools, in declaration order. -/
def TOOLS : List ToolDef := [searchToolDef, retrieveToolDef]

/-- A `TOOLS` entry as the JSON value served by `tools/list`. -/
def toolDefJs (t : ToolDef) : Js :=
  .obj [("name", .str t.name),
        ("description", .str t.description),
        ("inputSchema", .obj [("type", .str "object"),
                              ("properties", .obj t.inputSchema.properties),
                              ("required", .arr (t.inputSchema.required.map .str))])]

/-- The text `handleToolsCall` and `executeToolLogic` both produce for the
`search` tool (the two sites contain the identical template literal,
interpolating `query`). -/
def searchResultText (q : Js) : String :=
  "GoHighLevel Search Results for: \"" ++ jsToString q ++
  "\"\n\n✅ Found Results:\n• Contact: John Doe (john@example.com)\n• Contact: Jane Smith (jane@example.com)\n• Conversation: \"Follow-up call scheduled\"\n• Blog Post: \"How to Generate More Leads\"\n\n📊 Search completed successfully in GoHighLevel CRM."

/-- The text both sites produce for the `retrieve` tool; `now` stands for
the `new Date().toISOString()` call in the template. -/
def retrieveResultText (ty idv : Js) (now : String) : String :=
  "GoHighLevel " ++ jsToString ty ++ " Retrieved: ID " ++ jsToString idv ++
  "\n\n📄 Details:\n• Name: Sample " ++ jsToString ty ++
  "\n• Status: Active\n• Last Updated: " ++ now ++
  "\n• Source: GoHighLevel CRM\n\n✅ Data retrieved successfully from GoHighLevel."

/-- The `{content: [{type:"text", text}]}` result object built by
`handleToolsCall`. -/
def textContent (text : String) : Js :=
  .obj [("content", .arr [.obj [("type", .str "text"), ("text", .str text)]])]

/-- `handleInitialize(request)`. -/
def handleInitialize (request : Js) : Except JsErr JsonRpcResponse := do
  let _ ← getField request "params"   -- the log statement reads request.params
  let idv ← getField request "id"
  pure (createJsonRpcResponse idv
    (.obj [("protocolVersion", .str MCP_PROTOCOL_VERSION),
           ("capabilities", .obj [("tools", .obj [])]),
           ("serverInfo", SERVER_INFO)])
    none)

/-- `handleToolsList(request)`. -/
def handleToolsList (request : Js) : Except JsErr JsonRpcResponse := do
  let idv ← getField request "id"
  pure (createJsonRpcResponse idv (.obj [("tools", .arr (TOOLS.map toolDefJs))]) none)

/-- `handleToolsCall(request)`: destructures `request.params` into
`name` / `arguments` (a `TypeError` when `params` is null or undefined),
builds the content for `search` / `retrieve` (reading `args.query`, or
`args.type` and `args.id`, each a `TypeError` when `args` is null or
undefined), and answers any other name with a `-32601` error. -/
def handleToolsCall (now : String) (request : Js) : Except JsErr JsonRpcResponse := do
  let params ← getField request "params"
  let name ← getField params "name"
  let args ← getField params "arguments"
  if isStr name "search" then do
    let q ← getField args "query"
    let idv ← getField request "id"
    pure (createJsonRpcResponse idv (textContent (searchResultText q)) none)
  else if isStr name "retrieve" then do
    let ty ← getField args "type"
    let i ← getField args "id"
    let idv ← getField request "id"
    pure (createJsonRpcResponse idv (textContent (retrieveResultText ty i now)) none)
  else do
    let idv ← getField request "id"
    pure (createJsonRpcResponse idv .null
      (some { code := -32601, message := "Method not found: " ++ jsToString name, data := none }))

/-- `handlePing(request)`. -/
def handlePing (request : Js) : Except JsErr JsonRpcResponse := do
  let idv ← getField request "id"
  pure (createJsonRpcResponse idv (.obj []) none)

/-- The body of `processJsonRpcMessage`'s `try` block: the log statement
reads `message.method` and `message.id` (a `TypeError` when `message` is
null or undefined), then the `jsonrpc !== "2.0"` guard, then the `switch`
on `message.method` (strict string comparison, so a non-string method
falls to the default `-32601` case). -/
def processInner (now : String) (message : Js) : Except JsErr JsonRpcResponse := do
  let _ ← getField message "method"
  let _ ← getField message "id"
  let jsonrpc ← getField message "jsonrpc"
  if !(isStr jsonrpc "2.0") then do
    let idv ← getField message "id"
    pure (createJsonRpcResponse idv .null
      (some { code := -32600, message := "Invalid Request: jsonrpc must be \x272.0\x27",
              data := none }))
  else do
    let m ← getField message "method"
    if isStr m "initialize" then handleInitialize message
    else if isStr m "tools/list" then handleToolsList message
    else if isStr m "tools/call" then handleToolsCall now message
    else if isStr m "ping" then handlePing message
    else do
      let idv ← getField message "id"
      pure (createJsonRpcResponse idv .null
        (some { code := -32601, message := "Method not found: " ++ jsToString m,
                data := none }))

/-- `processJsonRpcMessage(message)`: the `try/catch` wrapper.  The catch
block itself reads `message.id` to build the `-32603` envelope, so a
fault raised by that very read (e.g. `message` null) escapes to the
caller — modelled by the remaining `.error` case. -/
def processJsonRpcMessage (now : String) (message : Js) : Except JsErr JsonRpcResponse :=
  match processInner now message with
  | .ok r => .ok r
  | .error e =>
      match getField message "id" with
      | .ok idv =>
          .ok (createJsonRpcResponse idv .null
            (some { code := -32603, message := "Internal error", data := some (.str e.message) }))
      | .error e2 => .error e2

/-- `executeToolLogic(toolName, parameters)`: shared by the GenAI bridge;
throws for a name other than `search` / `retrieve`. -/
def executeToolLogic (now : String) (toolName : String) (parameters : Js) :
    Except JsErr String :=
  if toolName == "search" then do
    let q ← getField parameters "query"
    pure (searchResultText q)
  else if toolName == "retrieve" then do
    let ty ← getField parameters "type"
    let i ← getField parameters "id"
    pure (retrieveResultText ty i now)
  else
    .error { message := "Tool \x27" ++ toolName ++ "\x27 execution not implemented" }

/-! ## The GenAI REST bridge (`POST /api/genai/tools/{toolName}`) -/

/-- The `metadata` object of a GenAI bridge response. -/
structure RestMetadata where
  tool : String
  timestamp : String
  parameters : Option Js
  execution_time : Option String
deriving Repr

/-- A GenAI bridge HTTP response.  `status` is the HTTP status code; the
optional fields are the JSON body members each branch sets.  `executed`
is not a body field: it records whether `executeToolLogic` was invoked
(the observable effect the validation claims are about). -/
structure RestResponse where
  status : Nat
  success : Bool
  error : Option String
  details : Option String
  result : Option String
  required_parameters : Option (List String)
  provided_parameters : Option (List String)
  available_tools : Option (List String)
  metadata : Option RestMetadata
  executed : Bool
deriving Repr

/-- `requiredParams.filter(param => !(param in parameters))`: JavaScript
`Array.prototype.filter` visits left to right and a callback throw
propagates, so the fold is sequenced through `Except`. -/
def missingOf (required : List String) (parameters : Js) : Except JsErr (List String) :=
  match required with
  | [] => .ok []
  | p :: rest => do
      let has ← hasKey parameters p
      let tail ← missingOf rest parameters
      pure (if has then tail else p :: tail)

/-- The body of the GenAI execution branch's `req.on('end')` callback
after `JSON.parse` succeeded with `requestData`: reads
`requestData.parameters || {}`, resolves the tool, validates required
names by key presence, and runs `executeToolLogic` inside the inner
`try/catch`.  A fault (`.error`) is what the outer catch receives. -/
def genAiHandleBody (now toolName : String) (requestData : Js) :
    Except JsErr RestResponse := do
  let pRaw ← getField requestData "parameters"
  let parameters := if truthy pRaw then pRaw else Js.obj []
  match TOOLS.find? (fun t => t.name == toolName) with
  | none =>
      pure { status := 404, success := false
           , error := some ("Tool \x27" ++ toolName ++ "\x27 not found")
           , details := none, result := none
           , required_parameters := none, provided_parameters := none
           , available_tools := some (TOOLS.map (fun t => t.name))
           , metadata := some { tool := toolName, timestamp := now
                              , parameters := none, execution_time := none }
           , executed := false }
  | some tool => do
      let requiredParams := tool.inputSchema.required
      let missingParams ← missingOf requiredParams parameters
      if missingParams.length > 0 then
        pure { status := 400, success := false
             , error := some ("Missing required parameters: " ++
                 String.intercalate ", " missingParams)
             , details := none, result := none
             , required_parameters := some requiredParams
             , provided_parameters := some (jsKeys parameters)
             , available_tools := none
             , metadata := some { tool := toolName, timestamp := now
                                , parameters := none, execution_time := none }
             , executed := false }
      else
        match executeToolLogic now toolName parameters with
        | .ok result =>
            pure { status := 200, success := true
                 , error := none, details := none, result := some result
                 , required_parameters := none, provided_parameters := none
                 , available_tools := none
                 , metadata := some { tool := toolName, timestamp := now
                                    , parameters := some parameters
                                    , execution_time := some now }
                 , executed := true }
        | .error toolError =>
            pure { status := 500, success := false
                 , error := some toolError.message
                 , details := none, result := none
                 , required_parameters := none, provided_parameters := none
                 , available_tools := none
                 , metadata := some { tool := toolName, timestamp := now
                                    , parameters := some parameters
                                    , execution_time := none }
                 , executed := true }

/-- The whole GenAI execution endpoint for a request body whose
`JSON.parse` outcome is `parsed` (`none` = the parse threw).  The outer
catch converts a parse failure — or any fault escaping
`genAiHandleBody` — into the 400 "Invalid JSON in request body"
response. -/
def genAiExecute (now toolName : String) (parsed : Option Js) : RestResponse :=
  let invalid (details : String) : RestResponse :=
    { status := 400, success := false
    , error := some "Invalid JSON in request body"
    , details := some details, result := none
    , required_parameters := none, provided_parameters := none
    , available_tools := none
    , metadata := some { tool := toolName, timestamp := now
                       , parameters := none, execution_time := none }
    , executed := false }
  match parsed with
  | none => invalid "Unexpected token in JSON"
  | some requestData =>
      match genAiHandleBody now toolName requestData with
      | .ok r => r
      | .error e => invalid e.message

/-! ## The SSE transport (`/sse`)

The GET branch writes the `notification/initialized` frame synchronously,
then arms three ambient timers: a 100 ms `setTimeout` pushing
`notification/tools/list_changed`, a 25 s heartbeat `setInterval`, and a
50 s auto-close `setTimeout` that runs `clearInterval(heartbeat)` and
`res.end()`.  The `close` and `error` handlers run
`clearInterval(heartbeat)` only — neither `setTimeout` handle is stored,
so neither can be cancelled.  The model is a state machine over these
events; real durations order the timer events but every interleaving is
a run of the machine. -/

/-- One action issued on the SSE response stream. -/
inductive SseWrite where
  | frameNotif (method : String)      -- `data:` frame carrying a notification
  | frameResp (r : JsonRpcResponse)   -- `data:` frame carrying a response
  | heartbeat                         -- the `: heartbeat` comment line
  | endStream                         -- `res.end()`
deriving Repr

/-- Per-connection SSE state: whether the underlying stream is still
open, which scheduled callbacks are still armed, the actions issued
while the stream was open, and those issued after it was torn down
(`sendSSE` swallows the resulting write error; the heartbeat `res.write`
and `res.end` are issued bare). -/
structure SseConn where
  streamOpen : Bool
  heartbeatArmed : Bool
  toolsTimerArmed : Bool
  deadlineArmed : Bool
  writes : List SseWrite
  postCloseWrites : List SseWrite
deriving Repr

/-- Record an action issued on the stream. -/
def sseIssue (s : SseConn) (w : SseWrite) : SseConn :=
  if s.streamOpen then { s with writes := s.writes ++ [w] }
  else { s with postCloseWrites := s.postCloseWrites ++ [w] }

/-- Connection state right after the GET branch ran: the `initialized`
notification has been pushed and all three timers are armed. -/
def sseInit : SseConn :=
  { streamOpen := true
  , heartbeatArmed := true
  , toolsTimerArmed := true
  , deadlineArmed := true
  , writes := [.frameNotif "notification/initialized"]
  , postCloseWrites := [] }

/-- The events that can occur on an open SSE GET connection. -/
inductive SseEvent where
  | clientClose     -- the request's 'close' event (client disconnect)
  | streamError     -- the request's 'error' event
  | toolsTimer      -- the 100 ms notification setTimeout fires
  | heartbeatTick   -- the 25 s setInterval fires
  | deadlineTimer   -- the 50 s auto-close setTimeout fires
deriving Repr

/-- One step of the SSE GET connection, as the handlers register it:
`close` destroys the stream and runs `clearInterval(heartbeat)` — and
nothing else; `error` runs `clearInterval(heartbeat)`; each timer fires
only while armed. -/
def sseStep (s : SseConn) (e : SseEvent) : SseConn :=
  match e with
  | .clientClose => { s with streamOpen := false, heartbeatArmed := false }
  | .streamError => { s with heartbeatArmed := false }
  | .toolsTimer =>
      if s.toolsTimerArmed then
        sseIssue { s with toolsTimerArmed := false }
          (.frameNotif "notification/tools/list_changed")
      else s
  | .heartbeatTick => if s.heartbeatArmed then sseIssue s .heartbeat else s
  | .deadlineTimer =>
      if s.deadlineArmed then
        let s1 := sseIssue { s with deadlineArmed := false, heartbeatArmed := false } .endStream
        { s1 with streamOpen := false }
      else s

/-- Run a sequence of events. -/
def sseRun (s : SseConn) : List SseEvent → SseConn
  | [] => s
  | e :: es => sseRun (sseStep s e) es

/-- The POST branch of `/sse` for a body whose `JSON.parse` outcome is
`parsed` (`none` = the parse threw).  A successful dispatch pushes the
response frame and schedules `res.end()` 100 ms later; the catch — which
also receives any fault escaping `processJsonRpcMessage` — pushes the
`-32700` / null-id envelope and ends the stream at once. -/
def ssePost (now : String) (parsed : Option Js) : List SseWrite :=
  match parsed with
  | some message =>
      match processJsonRpcMessage now message with
      | .ok response => [.frameResp response, .endStream]
      | .error _ =>
          [.frameResp (createJsonRpcResponse .null .null
              (some { code := -32700, message := "Parse error", data := none })),
           .endStream]
  | none =>
      [.frameResp (createJsonRpcResponse .null .null
          (some { code := -32700, message := "Parse error", data := none })),
       .endStream]

/-! ## The `src/server.ts` CallTool handler

The `CallToolRequestSchema` handler routes a tool name through the
`isXTool` membership predicates below (in source order) to an external
handler group, or throws `Error("Unknown tool: " + name)` from the final
`else`.  Its catch block rethrows every failure as an `McpError` whose
code is `InvalidRequest` when the error message contains `'404'` and
`InternalError` otherwise.  The handler groups themselves live outside
this repository's sources; the unknown-name path, which is what the
claims need, is decided entirely by the code below. -/

def contactToolNames : List String :=
  ["create_contact", "search_contacts", "get_contact", "update_contact",
   "add_contact_tags", "remove_contact_tags", "delete_contact",
   "get_contact_tasks", "create_contact_task", "get_contact_task", "update_contact_task",
   "delete_contact_task", "update_task_completion",
   "get_contact_notes", "create_contact_note", "get_contact_note", "update_contact_note",
   "delete_contact_note",
   "upsert_contact", "get_duplicate_contact", "get_contacts_by_business",
   "get_contact_appointments",
   "bulk_update_contact_tags", "bulk_update_contact_business",
   "add_contact_followers", "remove_contact_followers",
   "add_contact_to_campaign", "remove_contact_from_campaign",
   "remove_contact_from_all_campaigns",
   "add_contact_to_workflow", "remove_contact_from_workflow"]

def conversationToolNames : List String :=
  ["send_sms", "send_email", "search_conversations", "get_conversation",
   "create_conversation", "update_conversation", "delete_conversation",
   "get_recent_messages",
   "get_email_message", "get_message", "upload_message_attachments",
   "update_message_status",
   "add_inbound_message", "add_outbound_call",
   "get_message_recording", "get_message_transcription", "download_transcription",
   "cancel_scheduled_message", "cancel_scheduled_email",
   "live_chat_typing"]

def blogToolNames : List String :=
  ["create_blog_post", "update_blog_post", "get_blog_posts", "get_blog_sites",
   "get_blog_authors", "get_blog_categories", "check_url_slug"]

def opportunityToolNames : List String :=
  ["search_opportunities", "get_pipelines", "get_opportunity", "create_opportunity",
   "update_opportunity_status", "delete_opportunity", "update_opportunity",
   "upsert_opportunity", "add_opportunity_followers", "remove_opportunity_followers"]

def calendarToolNames : List String :=
  ["get_calendar_groups", "get_calendars", "create_calendar", "get_calendar",
   "update_calendar",
   "delete_calendar", "get_calendar_events", "get_free_slots", "create_appointment",
   "get_appointment", "update_appointment", "delete_appointment", "create_block_slot",
   "update_block_slot"]

def emailToolNames : List String :=
  ["get_email_campaigns", "create_email_template", "get_email_templates",
   "update_email_template", "delete_email_template"]

def locationToolNames : List String :=
  ["search_locations", "get_location", "create_location", "update_location",
   "delete_location",
   "get_location_tags", "create_location_tag", "get_location_tag",
   "update_location_tag", "delete_location_tag",
   "search_location_tasks",
   "get_location_custom_fields", "create_location_custom_field",
   "get_location_custom_field",
   "update_location_custom_field", "delete_location_custom_field",
   "get_location_custom_values", "create_location_custom_value",
   "get_location_custom_value",
   "update_location_custom_value", "delete_location_custom_value",
   "get_location_templates", "delete_location_template",
   "get_timezones"]

def emailISVToolNames : List String := ["verify_email"]

def socialMediaToolNames : List String :=
  ["search_social_posts", "create_social_post", "get_social_post", "update_social_post",
   "delete_social_post", "bulk_delete_social_posts",
   "get_social_accounts", "delete_social_account",
   "upload_social_csv", "get_csv_upload_status", "set_csv_accounts",
   "get_social_categories", "get_social_category", "get_social_tags",
   "get_social_tags_by_ids",
   "start_social_oauth", "get_platform_accounts"]

def mediaToolNames : List String :=
  ["get_media_files", "upload_media_file", "delete_media_file"]

def objectToolNames : List String :=
  ["get_all_objects", "create_object_schema", "get_object_schema",
   "update_object_schema",
   "create_object_record", "get_object_record", "update_object_record",
   "delete_object_record",
   "search_object_records"]

def associationToolNames : List String :=
  ["ghl_get_all_associations", "ghl_create_association", "ghl_get_association_by_id",
   "ghl_update_association", "ghl_delete_association", "ghl_get_association_by_key",
   "ghl_get_association_by_object_key", "ghl_create_relation",
   "ghl_get_relations_by_record",
   "ghl_delete_relation"]

def customFieldV2ToolNames : List String :=
  ["ghl_get_custom_field_by_id", "ghl_create_custom_field", "ghl_update_custom_field",
   "ghl_delete_custom_field", "ghl_get_custom_fields_by_object_key",
   "ghl_create_custom_field_folder",
   "ghl_update_custom_field_folder", "ghl_delete_custom_field_folder"]

def workflowToolNames : List String := ["ghl_get_workflows"]

def surveyToolNames : List String := ["ghl_get_surveys", "ghl_get_survey_submissions"]

def storeToolNames : List String :=
  ["ghl_create_shipping_zone", "ghl_list_shipping_zones", "ghl_get_shipping_zone",
   "ghl_update_shipping_zone", "ghl_delete_shipping_zone",
   "ghl_get_available_shipping_rates", "ghl_create_shipping_rate",
   "ghl_list_shipping_rates",
   "ghl_get_shipping_rate", "ghl_update_shipping_rate", "ghl_delete_shipping_rate",
   "ghl_create_shipping_carrier", "ghl_list_shipping_carriers",
   "ghl_get_shipping_carrier",
   "ghl_update_shipping_carrier", "ghl_delete_shipping_carrier",
   "ghl_create_store_setting", "ghl_get_store_setting"]

def productsToolNames : List String :=
  ["ghl_create_product", "ghl_list_products", "ghl_get_product", "ghl_update_product",
   "ghl_delete_product", "ghl_create_price", "ghl_list_prices", "ghl_list_inventory",
   "ghl_create_product_collection", "ghl_list_product_collections"]

def paymentsToolNames : List String :=
  ["create_whitelabel_integration_provider", "list_whitelabel_integration_providers",
   "list_orders", "get_order_by_id",
   "create_order_fulfillment", "list_order_fulfillments",
   "list_transactions", "get_transaction_by_id",
   "list_subscriptions", "get_subscription_by_id",
   "list_coupons", "create_coupon", "update_coupon", "delete_coupon", "get_coupon",
   "create_custom_provider_integration", "delete_custom_provider_integration",
   "get_custom_provider_config", "create_custom_provider_config",
   "disconnect_custom_provider_config"]

def invoicesToolNames : List String :=
  ["create_invoice_template", "list_invoice_templates", "get_invoice_template",
   "update_invoice_template", "delete_invoice_template",
   "update_invoice_template_late_fees", "update_invoice_template_payment_methods",
   "create_invoice_schedule", "list_invoice_schedules", "get_invoice_schedule",
   "update_invoice_schedule", "delete_invoice_schedule",
   "schedule_invoice_schedule", "auto_payment_invoice_schedule",
   "cancel_invoice_schedule",
   "create_invoice", "list_invoices", "get_invoice", "update_invoice",
   "delete_invoice", "void_invoice", "send_invoice",
   "record_invoice_payment", "generate_invoice_number", "text2pay_invoice",
   "update_invoice_last_visited",
   "create_estimate", "list_estimates", "update_estimate", "delete_estimate",
   "send_estimate", "create_invoice_from_estimate",
   "generate_estimate_number", "update_estimate_last_visited",
   "list_estimate_templates", "create_estimate_template", "update_estimate_template",
   "delete_estimate_template", "preview_estimate_template"]

def isContactTool (toolName : String) : Bool := contactToolNames.contains toolName
def isConversationTool (toolName : String) : Bool := conversationToolNames.contains toolName
def isBlogTool (toolName : String) : Bool := blogToolNames.contains toolName
def isOpportunityTool (toolName : String) : Bool := opportunityToolNames.contains toolName
def isCalendarTool (toolName : String) : Bool := calendarToolNames.contains toolName
def isEmailTool (toolName : String) : Bool := emailToolNames.contains toolName
def isLocationTool (toolName : String) : Bool := locationToolNames.contains toolName
def isEmailISVTool (toolName : String) : Bool := emailISVToolNames.contains toolName
def isSocialMediaTool (toolName : String) : Bool := socialMediaToolNames.contains toolName
def isMediaTool (toolName : String) : Bool := mediaToolNames.contains toolName
def isObjectTool (toolName : String) : Bool := objectToolNames.contains toolName
def isAssociationTool (toolName : String) : Bool := associationToolNames.contains toolName
def isCustomFieldV2Tool (toolName : String) : Bool := customFieldV2ToolNames.contains toolName
def isWorkflowTool (toolName : String) : Bool := workflowToolNames.contains toolName
def isSurveyTool (toolName : String) : Bool := surveyToolNames.contains toolName
def isStoreTool (toolName : String) : Bool := storeToolNames.contains toolName
def isProductsTool (toolName : String) : Bool := productsToolNames.contains toolName
def isPaymentsTool (toolName : String) : Bool := paymentsToolNames.contains toolName
def isInvoicesTool (toolName : String) : Bool := invoicesToolNames.contains toolName

/-- A name reaches some handler-group branch of the `if/else` routing
chain (source order). -/
def knownServerTool (n : String) : Bool :=
  isContactTool n || isConversationTool n || isBlogTool n || isOpportunityTool n ||
  isCalendarTool n || isEmailTool n || isLocationTool n || isEmailISVTool n ||
  isSocialMediaTool n || isMediaTool n || isObjectTool n || isAssociationTool n ||
  isCustomFieldV2Tool n || isWorkflowTool n || isSurveyTool n || isStoreTool n ||
  isProductsTool n || isPaymentsTool n || isInvoicesTool n

/-- `as` begins with `pre` (character lists). -/
def listStartsWith : List Char → List Char → Bool
  | _, [] => true
  | [], _ :: _ => false
  | a :: as, b :: bs => a == b && listStartsWith as bs

/-- `sub` occurs as a contiguous run of `s` (character lists). -/
def listHasInfix (sub : List Char) : List Char → Bool
  | [] => sub.isEmpty
  | a :: as => listStartsWith (a :: as) sub || listHasInfix sub as

/-- Substring containment test, `String.prototype.includes`. -/
def strIncludes (s sub : String) : Bool := listHasInfix sub.toList s.toList

/-- `ErrorCode.InvalidRequest` of the MCP SDK — modelled from the spec:
the SDK is an external dependency; §6 fixes the JSON-RPC reserved code
`-32600 invalid request`. -/
def ErrorCodeInvalidRequest : Int := -32600

/-- `ErrorCode.InternalError` of the MCP SDK — modelled from the spec:
§6 fixes the JSON-RPC reserved code `-32603 internal error`. -/
def ErrorCodeInternalError : Int := -32603

/-- The catch block's code choice: `error.message.includes('404') ?
ErrorCode.InvalidRequest : ErrorCode.InternalError`. -/
def mcpErrorCodeFor (errMessage : String) : Int :=
  if strIncludes errMessage "404" then ErrorCodeInvalidRequest else ErrorCodeInternalError

/-- The `McpError` (code, message) the `CallToolRequestSchema` handler
throws for a name no routing branch accepts: the final `else` throws
`Error("Unknown tool: " + name)`, the catch rethrows it as
`McpError(errorCode, "Tool execution failed: " + error)`. -/
def serverCallToolUnknown (name : String) : Int × String :=
  (mcpErrorCodeFor ("Unknown tool: " ++ name),
   "Tool execution failed: Error: Unknown tool: " ++ name)

/-! ## Helper lemmas -/

/-- Total version of `getField` (used only to state theorems about
non-null, non-undefined bases, where it agrees with `getField`). -/
def jsField (v : Js) (k : String) : Js :=
  match getField v k with
  | .ok u => u
  | .error _ => .undefined

theorem getField_eq_ok (v : Js) (k : String) (h1 : v ≠ .null) (h2 : v ≠ .undefined) :
    getField v k = .ok (jsField v k) := by
  cases v <;> simp_all [getField, jsField]

theorem objGet_eq_undef_of_not_any (ps : List (String × Js)) (k : String)
    (h : ps.any (fun kv => kv.1 == k) = false) : objGet ps k = .undefined := by
  unfold objGet
  rw [List.find?_eq_none.mpr]
  intro kv hkv
  have := List.any_eq_false.mp h kv hkv
  simpa using this

theorem missingOf_obj (req : List String) (ps : List (String × Js)) :
    missingOf req (.obj ps) =
      .ok (req.filter (fun p => !(ps.any (fun kv => kv.1 == p)))) := by
  induction req with
  | nil => rfl
  | cons p rest ih =>
      simp only [missingOf, hasKey, ih, List.filter_cons, Bind.bind, Except.bind]
      cases h : ps.any (fun kv => kv.1 == p) <;> simp [h, Pure.pure, Except.pure]

example : processJsonRpcMessage "T"
    (.obj [("jsonrpc", .str "2.0"), ("id", .num 1), ("method", .str "ping")]) =
    .ok { id := .num 1, result := some (.obj []), error := none } := rfl

example : processJsonRpcMessage "T" .null =
    .error { message := "Cannot read properties of null (reading \x27id\x27)" } := rfl

example : genAiExecute "T" "search" (some (.obj [("parameters", .obj [])])) =
    { status := 400, success := false
    , error := some "Missing required parameters: query"
    , details := none, result := none
    , required_parameters := some ["query"]
    , provided_parameters := some []
    , available_tools := none
    , metadata := some { tool := "search", timestamp := "T"
                       , parameters := none, execution_time := none }
    , executed := false } := rfl

theorem isStr_str (t s : String) : isStr (.str t) s = (t == s) := rfl

theorem isStr_eq_false (v : Js) (s : String) (h : v ≠ .str s) : isStr v s = false := by
  cases v <;> simp [isStr]
  rename_i t
  exact fun heq => h (congrArg Js.str heq)

/-! ## Claim theorems -/

/-- C7: a POST to `/sse` whose body is not parseable JSON pushes exactly
one SSE data frame — an error envelope with code `-32700` and null
`id` — and then closes the stream with nothing further written. -/
theorem C7_sse_post_parse_error (now : String) :
    ssePost now none =
      [.frameResp { id := .null, result := none,
                    error := some { code := -32700, message := "Parse error",
                                    data := none } },
       .endStream] := rfl

/-- C5: any decoded message object whose `jsonrpc` member is not the
string `"2.0"` is answered with a `-32600` error envelope echoing the
incoming `id`, whatever the `method` member holds. -/
theorem C5_invalid_jsonrpc_32600 (now : String) (fs : List (String × Js))
    (h : objGet fs "jsonrpc" ≠ .str "2.0") :
    processJsonRpcMessage now (.obj fs) =
      .ok { id := objGet fs "id", result := none,
            error := some { code := -32600,
                            message := "Invalid Request: jsonrpc must be \x272.0\x27",
                            data := none } } := by
  have hj : isStr (objGet fs "jsonrpc") "2.0" = false := isStr_eq_false _ _ h
  simp [processJsonRpcMessage, processInner, getField, hj, createJsonRpcResponse,
    Bind.bind, Except.bind, Pure.pure, Except.pure]

theorem C5_witness :
    processJsonRpcMessage "2024-01-01T00:00:00.000Z"
        (.obj [("jsonrpc", .str "1.0"), ("id", .num 7), ("method", .str "ping")]) =
      .ok { id := .num 7, result := none,
            error := some { code := -32600,
                            message := "Invalid Request: jsonrpc must be \x272.0\x27",
                            data := none } } := by
  have h : objGet [("jsonrpc", Js.str "1.0"), ("id", Js.num 7), ("method", Js.str "ping")]
      "jsonrpc" ≠ Js.str "2.0" := by
    have e : objGet [("jsonrpc", Js.str "1.0"), ("id", Js.num 7), ("method", Js.str "ping")]
        "jsonrpc" = Js.str "1.0" := rfl
    rw [e]
    exact fun hc => absurd (Js.str.inj hc) (by decide)
  exact C5_invalid_jsonrpc_32600 "2024-01-01T00:00:00.000Z" _ h

/-- C2: evaluating the SSE GET teardown logic at a client disconnect.
The `close` handler leaves both `setTimeout` timers armed (only the
heartbeat interval is cleared), and on the trace
`[clientClose, toolsTimer, deadlineTimer]` the connection issues the
`tools/list_changed` frame and the `res.end()` on the already-closed
stream — contradicting "both pending timers are cancelled and no further
write of any kind is ever issued". -/
theorem C2_close_leaves_timers_armed :
    ((sseStep sseInit .clientClose).streamOpen = false ∧
     (sseStep sseInit .clientClose).heartbeatArmed = false ∧
     (sseStep sseInit .clientClose).deadlineArmed = true ∧
     (sseStep sseInit .clientClose).toolsTimerArmed = true) ∧
    (sseRun sseInit [.clientClose, .toolsTimer, .deadlineTimer]).postCloseWrites =
      [.frameNotif "notification/tools/list_changed", .endStream] :=
  ⟨⟨rfl, rfl, rfl, rfl⟩, rfl⟩

/-- C10: the `search` tool's output depends only on the `query` argument:
two parameter objects with equal `query` values give identical
`executeToolLogic` results (whatever the clock reads), and the
`tools/call` path produces that same text for the same query. -/
theorem C10_search_depends_only_on_query (now1 now2 : String)
    (ps1 ps2 : List (String × Js))
    (h : objGet ps1 "query" = objGet ps2 "query") :
    executeToolLogic now1 "search" (.obj ps1) = executeToolLogic now2 "search" (.obj ps2) ∧
    (∀ idv : Js,
      handleToolsCall now1 (.obj [("id", idv),
          ("params", .obj [("name", .str "search"), ("arguments", .obj ps1)])]) =
        .ok { id := idv
            , result := some (textContent (searchResultText (objGet ps1 "query")))
            , error := none }) ∧
    executeToolLogic now1 "search" (.obj ps1) = .ok (searchResultText (objGet ps1 "query")) := by
  refine ⟨?_, ?_, ?_⟩
  · have e1 : executeToolLogic now1 "search" (.obj ps1) =
        .ok (searchResultText (objGet ps1 "query")) := rfl
    have e2 : executeToolLogic now2 "search" (.obj ps2) =
        .ok (searchResultText (objGet ps2 "query")) := rfl
    rw [e1, e2, h]
  · intro idv
    rfl
  · rfl

theorem C10_witness :
    executeToolLogic "2024-01-01T00:00:00.000Z" "search"
        (.obj [("query", .str "leads"), ("limit", .num 5)]) =
      executeToolLogic "2025-06-30T12:00:00.000Z" "search"
        (.obj [("query", .str "leads")]) ∧
    handleToolsCall "2024-01-01T00:00:00.000Z" (.obj [("id", .num 9),
        ("params", .obj [("name", .str "search"),
                         ("arguments", .obj [("query", .str "leads"), ("limit", .num 5)])])]) =
      .ok { id := .num 9
          , result := some (textContent (searchResultText (.str "leads")))
          , error := none } ∧
    executeToolLogic "2024-01-01T00:00:00.000Z" "search"
        (.obj [("query", .str "leads"), ("limit", .num 5)]) =
      .ok (searchResultText (.str "leads")) := by
  have h := C10_search_depends_only_on_query "2024-01-01T00:00:00.000Z"
    "2025-06-30T12:00:00.000Z"
    [("query", .str "leads"), ("limit", .num 5)] [("query", .str "leads")] rfl
  exact ⟨h.1, h.2.1 (.num 9), h.2.2⟩

/-- C4: a GenAI-bridge POST for a registered tool whose `parameters`
object lacks at least one declared required name gets HTTP 400 with
`success:false`, an error message listing exactly the missing names in
declaration order, `required_parameters` equal to the full declared
required list — and the tool is not executed. -/
theorem C4_rest_missing_params (now toolName : String) (ps : List (String × Js))
    (tool : ToolDef)
    (hfind : TOOLS.find? (fun t => t.name == toolName) = some tool)
    (hmiss : tool.inputSchema.required.filter
        (fun p => !(ps.any (fun kv => kv.1 == p))) ≠ []) :
    genAiExecute now toolName (some (.obj [("parameters", .obj ps)])) =
      { status := 400, success := false
      , error := some ("Missing required parameters: " ++ String.intercalate ", "
          (tool.inputSchema.required.filter (fun p => !(ps.any (fun kv => kv.1 == p)))))
      , details := none, result := none
      , required_parameters := some tool.inputSchema.required
      , provided_parameters := some (ps.map (fun kv => kv.1))
      , available_tools := none
      , metadata := some { tool := toolName, timestamp := now
                         , parameters := none, execution_time := none }
      , executed := false } := by
  have hpos : 0 < (tool.inputSchema.required.filter
      (fun p => !(ps.any (fun kv => kv.1 == p)))).length := List.length_pos.mpr hmiss
  simp [genAiExecute, genAiHandleBody, getField, objGet, truthy, hfind,
    missingOf_obj, jsKeys, Bind.bind, Except.bind, Pure.pure, Except.pure, hpos]

theorem C4_witness :
    genAiExecute "2024-01-01T00:00:00.000Z" "search" (some (.obj [("parameters", .obj [])])) =
      { status := 400, success := false
      , error := some "Missing required parameters: query"
      , details := none, result := none
      , required_parameters := some ["query"]
      , provided_parameters := some []
      , available_tools := none
      , metadata := some { tool := "search", timestamp := "2024-01-01T00:00:00.000Z"
                         , parameters := none, execution_time := none }
      , executed := false } := by
  have h := C4_rest_missing_params "2024-01-01T00:00:00.000Z" "search" [] searchToolDef
    rfl (by decide)
  exact h

/-- C9: the GenAI-bridge required-parameter check tests only key
presence: whenever every declared required name is present as a key of
the `parameters` object, validation passes and the tool is executed
(HTTP 200, `success:true`), regardless of the values — null, empty
string, or any other type. -/
theorem C9_rest_checks_presence_only (now toolName : String) (ps : List (String × Js))
    (tool : ToolDef)
    (hfind : TOOLS.find? (fun t => t.name == toolName) = some tool)
    (hall : ∀ p ∈ tool.inputSchema.required, ps.any (fun kv => kv.1 == p) = true) :
    (genAiExecute now toolName (some (.obj [("parameters", .obj ps)]))).status = 200 ∧
    (genAiExecute now toolName (some (.obj [("parameters", .obj ps)]))).success = true ∧
    (genAiExecute now toolName (some (.obj [("parameters", .obj ps)]))).executed = true := by
  have hfilter : tool.inputSchema.required.filter
      (fun p => !(ps.any (fun kv => kv.1 == p))) = [] := by
    rw [List.filter_eq_nil_iff]
    intro a ha
    simp [hall a ha]
  have hname : toolName = "search" ∨ toolName = "retrieve" := by
    by_cases h1 : toolName = "search"
    · exact Or.inl h1
    · by_cases h2 : toolName = "retrieve"
      · exact Or.inr h2
      · exfalso
        rw [show TOOLS.find? (fun t => t.name == toolName) = none from ?_] at hfind
        · exact Option.noConfusion hfind
        · rw [List.find?_eq_none]
          intro t ht
          simp [TOOLS, searchToolDef, retrieveToolDef] at ht
          rcases ht with h | h <;> subst h <;>
            simpa [searchToolDef, retrieveToolDef] using fun hc => by
              first
              | exact h1 hc.symm
              | exact h2 hc.symm
  have hexec : ∃ r, executeToolLogic now toolName (.obj ps) = .ok r := by
    rcases hname with h | h <;> subst h
    · exact ⟨_, rfl⟩
    · exact ⟨_, rfl⟩
  obtain ⟨r, hr⟩ := hexec
  simp [genAiExecute, genAiHandleBody, getField, objGet, truthy, hfind,
    missingOf_obj, hfilter, hr, Bind.bind, Except.bind, Pure.pure, Except.pure]

theorem C9_witness :
    (genAiExecute "2024-01-01T00:00:00.000Z" "retrieve"
      (some (.obj [("parameters", .obj [("id", .null), ("type", .str "")])]))).status = 200 ∧
    (genAiExecute "2024-01-01T00:00:00.000Z" "retrieve"
      (some (.obj [("parameters", .obj [("id", .null), ("type", .str "")])]))).success = true ∧
    (genAiExecute "2024-01-01T00:00:00.000Z" "retrieve"
      (some (.obj [("parameters", .obj [("id", .null), ("type", .str "")])]))).executed = true :=
  C9_rest_checks_presence_only "2024-01-01T00:00:00.000Z" "retrieve"
    [("id", .null), ("type", .str "")] retrieveToolDef rfl (by decide)

theorem sseIssue_writes (s : SseConn) (w : SseWrite) :
    ∃ t, (sseIssue s w).writes = s.writes ++ t := by
  unfold sseIssue
  split
  · exact ⟨[w], rfl⟩
  · exact ⟨[], by simp⟩

theorem sseStep_writes_append (s : SseConn) (e : SseEvent) :
    ∃ t, (sseStep s e).writes = s.writes ++ t := by
  cases e
  case clientClose => exact ⟨[], by simp [sseStep]⟩
  case streamError => exact ⟨[], by simp [sseStep]⟩
  case toolsTimer =>
    simp only [sseStep]
    split
    · obtain ⟨t, ht⟩ := sseIssue_writes { s with toolsTimerArmed := false }
        (SseWrite.frameNotif "notification/tools/list_changed")
      exact ⟨t, by simpa using ht⟩
    · exact ⟨[], by simp⟩
  case heartbeatTick =>
    simp only [sseStep]
    split
    · exact sseIssue_writes s .heartbeat
    · exact ⟨[], by simp⟩
  case deadlineTimer =>
    simp only [sseStep]
    split
    · obtain ⟨t, ht⟩ := sseIssue_writes
        { s with deadlineArmed := false, heartbeatArmed := false } SseWrite.endStream
      exact ⟨t, by simpa using ht⟩
    · exact ⟨[], by simp⟩

theorem sseRun_writes_append (s : SseConn) (es : List SseEvent) :
    ∃ t, (sseRun s es).writes = s.writes ++ t := by
  induction es generalizing s with
  | nil => exact ⟨[], by simp [sseRun]⟩
  | cons e es ih =>
      obtain ⟨t1, h1⟩ := sseStep_writes_append s e
      obtain ⟨t2, h2⟩ := ih (sseStep s e)
      exact ⟨t1 ++ t2, by simp [sseRun, h2, h1]⟩

/-- C8: on an SSE GET connection the `initialized` frame precedes any
`tools/list_changed` frame in the issued-write order, whatever events
occur; and on the `/sse` POST path the response frame to the posted
message is pushed before the stream close. -/
theorem C8_push_ordering :
    (∀ (es : List SseEvent) (i : Nat),
       ((sseRun sseInit es).writes)[i]? =
           some (.frameNotif "notification/tools/list_changed") →
       ∃ j, j < i ∧ ((sseRun sseInit es).writes)[j]? =
           some (.frameNotif "notification/initialized")) ∧
    (∀ (now : String) (parsed : Option Js),
       ∃ r, ssePost now parsed = [.frameResp r, .endStream]) := by
  constructor
  · intro es i hi
    obtain ⟨t, ht⟩ := sseRun_writes_append sseInit es
    have h0 : ((sseRun sseInit es).writes)[0]? =
        some (.frameNotif "notification/initialized") := by
      rw [ht]; simp [sseInit]
    refine ⟨0, ?_, h0⟩
    rcases Nat.eq_zero_or_pos i with rfl | hpos
    · rw [h0] at hi
      exact absurd (SseWrite.frameNotif.inj (Option.some.inj hi)) (by decide)
    · exact hpos
  · intro now parsed
    cases parsed with
    | none => exact ⟨_, rfl⟩
    | some msg =>
        cases hp : processJsonRpcMessage now msg with
        | ok r => exact ⟨r, by simp [ssePost, hp]⟩
        | error e =>
            exact ⟨createJsonRpcResponse .null .null
                (some { code := -32700, message := "Parse error", data := none }),
              by simp [ssePost, hp]⟩

theorem C8_witness :
    (∃ j, j < 1 ∧ ((sseRun sseInit [.toolsTimer]).writes)[j]? =
        some (.frameNotif "notification/initialized")) ∧
    (∃ r, ssePost "2024-01-01T00:00:00.000Z" none = [.frameResp r, .endStream]) :=
  ⟨C8_push_ordering.1 [.toolsTimer] 1 rfl,
   C8_push_ordering.2 "2024-01-01T00:00:00.000Z" none⟩

/-- C1 counterexample: a `tools/call` for the registered `search` tool
whose `arguments` object omits the required `query` parameter is NOT
answered with a missing-parameter error — the dispatcher executes the
tool and returns a success envelope (`error := none`) whose text
interpolates the absent argument as `undefined`. -/
theorem C1_counterexample :
    processJsonRpcMessage "2024-01-01T00:00:00.000Z"
        (.obj [("jsonrpc", .str "2.0"), ("id", .num 1), ("method", .str "tools/call"),
               ("params", .obj [("name", .str "search"), ("arguments", .obj [])])]) =
      .ok { id := .num 1
          , result := some (textContent (searchResultText .undefined))
          , error := none } := rfl

/-- C1 (amended): the `tools/call` path performs no required-parameter
validation at all — for any `arguments` object with no `query` key, the
dispatcher still invokes the `search` tool and returns a success
envelope whose text interpolates `undefined`; the missing-parameter
enumeration exists only on the REST `/api/genai/tools/{name}` path. -/
theorem C1_amended_no_validation (now : String) (idv : Js) (ps : List (String × Js))
    (h : ps.any (fun kv => kv.1 == "query") = false) :
    handleToolsCall now (.obj [("id", idv),
        ("params", .obj [("name", .str "search"), ("arguments", .obj ps)])]) =
      .ok { id := idv
          , result := some (textContent (searchResultText .undefined))
          , error := none } := by
  have hq : objGet ps "query" = .undefined := objGet_eq_undef_of_not_any ps "query" h
  have e : handleToolsCall now (.obj [("id", idv),
      ("params", .obj [("name", .str "search"), ("arguments", .obj ps)])]) =
      .ok { id := idv
          , result := some (textContent (searchResultText (objGet ps "query")))
          , error := none } := rfl
  rw [e, hq]

theorem C1_witness :
    handleToolsCall "2024-01-01T00:00:00.000Z" (.obj [("id", .num 1),
        ("params", .obj [("name", .str "search"),
                         ("arguments", .obj [("limit", .num 10)])])]) =
      .ok { id := .num 1
          , result := some (textContent (searchResultText .undefined))
          , error := none } :=
  C1_amended_no_validation "2024-01-01T00:00:00.000Z" (.num 1) [("limit", .num 10)] rfl

/-- C3 counterexample: `processJsonRpcMessage(null)` does not return a
response — the catch block itself reads `message.id` on `null` and the
resulting `TypeError` escapes to the caller. -/
theorem C3_counterexample :
    processJsonRpcMessage "2024-01-01T00:00:00.000Z" .null =
      .error { message := "Cannot read properties of null (reading \x27id\x27)" } := rfl

/-- C3 (amended): for every message other than `null` / `undefined` the
dispatcher returns a response and never lets an exception escape, and
any fault raised inside the `try` block is converted into a `-32603`
Internal error envelope carrying the fault message; for `null` /
`undefined` inputs the catch block's own `message.id` read throws and
the exception propagates to the caller. -/
theorem C3_amended_no_escape (now : String) (msg : Js)
    (h1 : msg ≠ .null) (h2 : msg ≠ .undefined) :
    (∃ r, processJsonRpcMessage now msg = .ok r) ∧
    (∀ e, processInner now msg = .error e →
      processJsonRpcMessage now msg =
        .ok { id := jsField msg "id", result := none,
              error := some { code := -32603, message := "Internal error",
                              data := some (.str e.message) } }) := by
  have hid := getField_eq_ok msg "id" h1 h2
  constructor
  · cases hp : processInner now msg with
    | ok r => exact ⟨r, by simp [processJsonRpcMessage, hp]⟩
    | error e =>
        exact ⟨{ id := jsField msg "id", result := none,
                 error := some { code := -32603, message := "Internal error",
                                 data := some (.str e.message) } },
          by simp [processJsonRpcMessage, hp, hid, createJsonRpcResponse]⟩
  · intro e he
    simp [processJsonRpcMessage, he, hid, createJsonRpcResponse]

theorem C3_witness :
    (∃ r, processJsonRpcMessage "2024-01-01T00:00:00.000Z"
        (.obj [("jsonrpc", .str "2.0"), ("id", .num 3), ("method", .str "tools/call")]) =
        .ok r) ∧
    processJsonRpcMessage "2024-01-01T00:00:00.000Z"
        (.obj [("jsonrpc", .str "2.0"), ("id", .num 3), ("method", .str "tools/call")]) =
      .ok { id := .num 3, result := none,
            error := some { code := -32603, message := "Internal error",
                            data := some (.str
                              "Cannot read properties of undefined (reading \x27name\x27)") } } :=
  ⟨(C3_amended_no_escape "2024-01-01T00:00:00.000Z"
      (.obj [("jsonrpc", .str "2.0"), ("id", .num 3), ("method", .str "tools/call")])
      nofun nofun).1,
   (C3_amended_no_escape "2024-01-01T00:00:00.000Z"
      (.obj [("jsonrpc", .str "2.0"), ("id", .num 3), ("method", .str "tools/call")])
      nofun nofun).2
     { message := "Cannot read properties of undefined (reading \x27name\x27)" } rfl⟩

/-- C6 counterexample: in `src/server.ts`, a `tools/call` naming the
unregistered tool `nope` does not produce a `-32601` error — the
handler's catch block rethrows the routing failure as an `McpError`
with `ErrorCode.InternalError` (`-32603`). -/
theorem C6_counterexample :
    knownServerTool "nope" = false ∧
    (serverCallToolUnknown "nope").1 = -32603 ∧ ((-32603 : Int) ≠ -32601) :=
  ⟨by decide, by decide, by decide⟩

/-- C6 (amended): the `api/server.js` dispatcher answers every method
outside `initialize` / `tools/list` / `tools/call` / `ping` with a
`-32601` error, and a `tools/call` naming a tool other than `search` /
`retrieve` likewise gets `-32601`; but the `src/server.ts` CallTool
handler instead throws an `McpError` whose code is never `-32601` for
an unknown tool name (it is `-32603`, or `-32600` when the name
contains `404`). -/
theorem C6_amended_not_found_codes :
    (∀ (now : String) (fs : List (String × Js)),
       objGet fs "jsonrpc" = .str "2.0" →
       (isStr (objGet fs "method") "initialize" || isStr (objGet fs "method") "tools/list" ||
        isStr (objGet fs "method") "tools/call" || isStr (objGet fs "method") "ping")
         = false →
       processJsonRpcMessage now (.obj fs) =
         .ok { id := objGet fs "id", result := none,
               error := some { code := -32601,
                               message := "Method not found: " ++
                                 jsToString (objGet fs "method"),
                               data := none } }) ∧
    (∀ (now : String) (fs ps : List (String × Js)),
       objGet fs "jsonrpc" = .str "2.0" →
       objGet fs "method" = .str "tools/call" →
       objGet fs "params" = .obj ps →
       (isStr (objGet ps "name") "search" || isStr (objGet ps "name") "retrieve") = false →
       processJsonRpcMessage now (.obj fs) =
         .ok { id := objGet fs "id", result := none,
               error := some { code := -32601,
                               message := "Method not found: " ++
                                 jsToString (objGet ps "name"),
                               data := none } }) ∧
    (∀ name : String, knownServerTool name = false →
       (serverCallToolUnknown name).1 ≠ -32601) := by
  refine ⟨?_, ?_, ?_⟩
  · intro now fs hj hm
    simp only [Bool.or_eq_false_iff] at hm
    obtain ⟨⟨⟨h1, h2⟩, h3⟩, h4⟩ := hm
    simp [processJsonRpcMessage, processInner, getField, hj, isStr_str, h1, h2, h3, h4,
      createJsonRpcResponse, Bind.bind, Except.bind, Pure.pure, Except.pure]
  · intro now fs ps hj hm hp hn
    simp only [Bool.or_eq_false_iff] at hn
    obtain ⟨h1, h2⟩ := hn
    simp [processJsonRpcMessage, processInner, handleToolsCall, getField, hj, hm, hp,
      isStr_str, h1, h2, createJsonRpcResponse, Bind.bind, Except.bind, Pure.pure,
      Except.pure]
  · intro name _
    simp only [serverCallToolUnknown, mcpErrorCodeFor, ErrorCodeInvalidRequest,
      ErrorCodeInternalError]
    split <;> decide

theorem C6_witness :
    processJsonRpcMessage "2024-01-01T00:00:00.000Z"
        (.obj [("jsonrpc", .str "2.0"), ("id", .num 2),
               ("method", .str "resources/list")]) =
      .ok { id := .num 2, result := none,
            error := some { code := -32601,
                            message := "Method not found: " ++
                              jsToString (.str "resources/list"),
                            data := none } } ∧
    processJsonRpcMessage "2024-01-01T00:00:00.000Z"
        (.obj [("jsonrpc", .str "2.0"), ("id", .num 2), ("method", .str "tools/call"),
               ("params", .obj [("name", .str "missing_tool"), ("arguments", .obj [])])]) =
      .ok { id := .num 2, result := none,
            error := some { code := -32601,
                            message := "Method not found: " ++
                              jsToString (.str "missing_tool"),
                            data := none } } ∧
    (serverCallToolUnknown "missing_tool").1 ≠ -32601 :=
  ⟨C6_amended_not_found_codes.1 "2024-01-01T00:00:00.000Z"
     [("jsonrpc", .str "2.0"), ("id", .num 2), ("method", .str "resources/list")]
     rfl rfl,
   C6_amended_not_found_codes.2.1 "2024-01-01T00:00:00.000Z"
     [("jsonrpc", .str "2.0"), ("id", .num 2), ("method", .str "tools/call"),
      ("params", .obj [("name", .str "missing_tool"), ("arguments", .obj [])])]
     [("name", .str "missing_tool"), ("arguments", .obj [])]
     rfl rfl rfl rfl,
   C6_amended_not_found_codes.2.2 "missing_tool" (by decide)⟩
